import Mathlib

/-!
Shallow embedding of the SEVIRI native-format reader
(`satpy/readers/seviri_l1b_native.py`): area-extent geometry,
channel-availability resolution, calibration-coefficient selection and the
per-pixel dataset pipeline, together with theorems settling the frozen
claims about them.

Real numbers of the source (numpy floats) are modelled by `ℚ`; a masked
(NaN) pixel is modelled by `none : Option ℚ`; Python exceptions are
modelled by `Except PyError`.
-/

namespace SeviriNative

/-- Modelled from the spec: the fixed global 12-entry channel-name table
(1-indexed in the source, `CHANNEL_NAMES` of `seviri_base`, which is not
part of the sources under scrutiny); position 12 is the designated
high-resolution channel `HRV`. -/
def CHANNEL_NAMES : List String :=
  ["VIS006", "VIS008", "IR_016", "IR_039", "WV_062", "WV_073",
   "IR_087", "IR_097", "IR_108", "IR_120", "IR_134", "HRV"]

/-- Modelled from the spec: the set of visible channels, for which no
alternate (GSICS) calibration coefficients exist (`VIS_CHANNELS` of
`seviri_base`, not part of the sources under scrutiny). -/
def VIS_CHANNELS : List String := ["HRV", "VIS006", "VIS008", "IR_016"]

/-- Modelled from the spec: the known maximum column count of the standard
grid (`VISIR_NUM_COLUMNS` of `seviri_base`). -/
def VISIR_NUM_COLUMNS : ℤ := 3712

/-- Modelled from the spec: the known maximum line count of the standard
grid (`VISIR_NUM_LINES` of `seviri_base`). -/
def VISIR_NUM_LINES : ℤ := 3712

/-- Modelled from the spec: the high-resolution channel has three times the
standard column density (`HRV_NUM_COLUMNS` of `seviri_base`). -/
def HRV_NUM_COLUMNS : ℤ := 11136

/-- Python exceptions that the embedded operations can raise. -/
inductive PyError where
  | notImplementedError (msg : String)
  | keyError
  deriving DecidableEq, Repr

/-- `NativeMSGFileHandler._calculate_area_extent` (lines 94-105): the four
projection-plane corner coordinates. -/
def calculate_area_extent (center_point north east south west
    we_offset ns_offset column_step line_step : ℚ) : ℚ × ℚ × ℚ × ℚ :=
  let ll_c := (center_point - east + 0.5 + we_offset) * column_step
  let ll_l := (north - center_point + 0.5 + ns_offset) * line_step
  let ur_c := (center_point - west - 0.5 + we_offset) * column_step
  let ur_l := (south - center_point - 0.5 + ns_offset) * line_step
  (ll_c, ll_l, ur_c, ur_l)

/-- The earth-model offset selection of `get_area_extent` (lines 311-325),
returning `(ns_offset, we_offset)`. -/
def earthModelOffsets (earth_model : ℤ) (name : String) :
    Except PyError (ℚ × ℚ) :=
  if earth_model = 2 then
    Except.ok (0, 0)
  else if earth_model = 1 then
    if name = "HRV" then Except.ok (-1.5, 1.5) else Except.ok (-0.5, 0.5)
  else
    Except.error (PyError.notImplementedError "Unrecognised Earth model")

/-- The header fields consumed by the area-extent computation.  Grid step
fields hold the raw header value in kilometres; the source multiplies by
1000 at the point of use. -/
structure AreaHeader where
  typeOfEarthModel : ℤ
  gridOriginHRV : ℤ
  gridOriginVISIR : ℤ
  columnDirGridStepHRV : ℚ
  lineDirGridStepHRV : ℚ
  columnDirGridStepVISIR : ℚ
  lineDirGridStepVISIR : ℚ
  northLineSelectedRectangle : ℤ
  eastColumnSelectedRectangle : ℤ
  southLineSelectedRectangle : ℤ
  westColumnSelectedRectangle : ℤ
  deriving DecidableEq, Repr

/-- The trailer fields consumed by the area-extent computation: the
reduced-scan flag and the actual high-resolution-channel window bounds. -/
structure AreaTrailer where
  reducedScan : Bool
  lowerNorthLineActual : ℤ
  lowerWestColumnActual : ℤ
  lowerSouthLineActual : ℤ
  lowerEastColumnActual : ℤ
  upperNorthLineActual : ℤ
  upperWestColumnActual : ℤ
  upperSouthLineActual : ℤ
  upperEastColumnActual : ℤ
  deriving DecidableEq, Repr

/-- The full-disk determination of `_read_header` (lines 189-200): the file
is a full disk unless the selected rectangle has fewer rows or columns than
the standard-grid maxima. -/
def is_full_disk (hdr : AreaHeader) : Bool :=
  ¬(hdr.northLineSelectedRectangle - hdr.southLineSelectedRectangle + 1
      < VISIR_NUM_LINES ∨
    hdr.westColumnSelectedRectangle - hdr.eastColumnSelectedRectangle + 1
      < VISIR_NUM_COLUMNS)

/-- The `origins` dictionary lookup of `get_area_extent` (line 342): a key
outside `{0, 1, 2, 3}` raises `KeyError`. -/
def originsLookup (grid_origin : ℤ) : Except PyError String :=
  if grid_origin = 0 then Except.ok "NW"
  else if grid_origin = 1 then Except.ok "SW"
  else if grid_origin = 2 then Except.ok "SE"
  else if grid_origin = 3 then Except.ok "NE"
  else Except.error PyError.keyError

/-- Result of `get_area_extent`: a single extent, or (full-disk HRV) the
upper and lower window extents with their line/column counts, mirroring the
source's 6-element return list. -/
inductive AreaExtentResult where
  | single (extent : ℚ × ℚ × ℚ × ℚ)
  | split (upper lower : ℚ × ℚ × ℚ × ℚ)
      (upper_nlines upper_ncols lower_nlines lower_ncols : ℤ)
  deriving DecidableEq, Repr

/-- `NativeMSGFileHandler.get_area_extent` (lines 294-411). -/
def get_area_extent (hdr : AreaHeader) (tr : AreaTrailer) (name : String) :
    Except PyError AreaExtentResult :=
  match earthModelOffsets hdr.typeOfEarthModel name with
  | Except.error e => Except.error e
  | Except.ok (ns_offset, we_offset) =>
    let grid_origin := if name = "HRV" then hdr.gridOriginHRV else hdr.gridOriginVISIR
    let center_point : ℚ :=
      if name = "HRV" then (HRV_NUM_COLUMNS : ℚ) / 2 - 2 else (VISIR_NUM_COLUMNS : ℚ) / 2
    let coeff : ℤ := if name = "HRV" then 3 else 1
    let column_step : ℚ :=
      (if name = "HRV" then hdr.columnDirGridStepHRV else hdr.columnDirGridStepVISIR) * 1000
    let line_step : ℚ :=
      (if name = "HRV" then hdr.lineDirGridStepHRV else hdr.lineDirGridStepVISIR) * 1000
    if grid_origin ≠ 2 then
      match originsLookup grid_origin with
      | Except.error e => Except.error e
      | Except.ok corner =>
        Except.error (PyError.notImplementedError
          ("Grid origin not supported number, " ++ corner ++ " corner"))
    else
      let is_rapid_scan := tr.reducedScan
      if name = "HRV" ∧ (is_full_disk hdr = true ∨ is_rapid_scan = true) then
        let lower_area_extent := calculate_area_extent center_point
          (tr.lowerNorthLineActual : ℚ) (tr.lowerEastColumnActual : ℚ)
          (tr.lowerSouthLineActual : ℚ) (tr.lowerWestColumnActual : ℚ)
          we_offset ns_offset column_step line_step
        if is_rapid_scan then
          Except.ok (AreaExtentResult.single lower_area_extent)
        else
          let lower_nlines := tr.lowerNorthLineActual - tr.lowerSouthLineActual + 1
          let lower_ncols := tr.lowerWestColumnActual - tr.lowerEastColumnActual + 1
          let upper_area_extent := calculate_area_extent center_point
            (tr.upperNorthLineActual : ℚ) (tr.upperEastColumnActual : ℚ)
            (tr.upperSouthLineActual : ℚ) (tr.upperWestColumnActual : ℚ)
            we_offset ns_offset column_step line_step
          let upper_nlines := tr.upperNorthLineActual - tr.upperSouthLineActual + 1
          let upper_ncols := tr.upperWestColumnActual - tr.upperEastColumnActual + 1
          Except.ok (AreaExtentResult.split upper_area_extent lower_area_extent
            upper_nlines upper_ncols lower_nlines lower_ncols)
      else
        let north : ℚ := (coeff : ℚ) * (hdr.northLineSelectedRectangle : ℚ)
        let east : ℚ := (coeff : ℚ) * (hdr.eastColumnSelectedRectangle : ℚ)
        let west : ℚ := (coeff : ℚ) * (hdr.westColumnSelectedRectangle : ℚ)
        let south : ℚ := (coeff : ℚ) * (hdr.southLineSelectedRectangle : ℚ)
        Except.ok (AreaExtentResult.single (calculate_area_extent center_point
          north east south west we_offset ns_offset column_step line_step))

/-- The extent formula as the spec states it, for refinement comparison:
the four coordinates as functions of the center reference point, the
bounds, the per-axis offsets and the step sizes. -/
def specExtentFormula (c north east south west we_offset ns_offset
    col_step row_step : ℚ) (e : ℚ × ℚ × ℚ × ℚ) : Prop :=
  e.1 = (c - east + 0.5 + we_offset) * col_step ∧
  e.2.1 = (north - c + 0.5 + ns_offset) * row_step ∧
  e.2.2.1 = (c - west - 0.5 + we_offset) * col_step ∧
  e.2.2.2 = (south - c - 0.5 + ns_offset) * row_step

/-- The four calibration levels a dataset request can name. -/
inductive Calibration where
  | counts | radiance | reflectance | brightness_temperature
  deriving DecidableEq, Repr

/-- The handler state consumed by `calibrate` and `get_dataset`: the
configured calibration mode, the two per-channel coefficient tables of the
header (nominal `CalSlope`/`CalOffset` and alternate
`GSICSCalCoeff`/`GSICSOffsetCount`), the per-channel processing-type codes,
and the list of channels present in the file. -/
structure CalibHandler where
  calib_mode : String
  calSlope : ℕ → ℚ
  calOffset : ℕ → ℚ
  gsicsCalCoeff : ℕ → ℚ
  gsicsOffsetCount : ℕ → ℚ
  plannedChanProcessing : ℕ → ℤ

/-- Modelled from the spec: the counts-to-radiance linear transform
`radiance = counts × gain + offset` (`_convert_to_radiance` of
`seviri_base`, not part of the sources under scrutiny), lifted over a
possibly-masked pixel. -/
def convert_to_radiance (data : Option ℚ) (gain offset : ℚ) : Option ℚ :=
  data.map (fun x => x * gain + offset)

/-- Python `str.upper()` on the calibration-mode string, modelled
character by character. -/
def upper (s : String) : String := String.mk (s.data.map Char.toUpper)

/-- `NativeMSGFileHandler.calibrate` (lines 466-513) on one
possibly-masked pixel.  The reflectance and brightness-temperature
inversions are external collaborators, supplied as the elementwise
functions `visCal` and `irCal` (the latter also receives the channel's
processing-type code). -/
def calibrate (h : CalibHandler) (channel : String)
    (calibration : Calibration) (data : Option ℚ)
    (visCal : ℚ → ℚ) (irCal : ℤ → ℚ → ℚ) : Except PyError (Option ℚ) :=
  let i := CHANNEL_NAMES.indexOf channel
  match calibration with
  | Calibration.counts => Except.ok data
  | _ =>
    if upper h.calib_mode ≠ "GSICS" ∧ upper h.calib_mode ≠ "NOMINAL" then
      Except.error (PyError.notImplementedError
        "Unknown Calibration mode : Please check")
    else
      let gain_offset :=
        if upper h.calib_mode ≠ "GSICS" ∨ channel ∈ VIS_CHANNELS then
          (h.calSlope i, h.calOffset i)
        else
          (h.gsicsCalCoeff i, h.gsicsOffsetCount i * h.gsicsCalCoeff i)
      let res := convert_to_radiance data gain_offset.1 gain_offset.2
      match calibration with
      | Calibration.reflectance => Except.ok (res.map visCal)
      | Calibration.brightness_temperature =>
          Except.ok (res.map (irCal (h.plannedChanProcessing i)))
      | _ => Except.ok res

/-- `get_available_channels` (lines 516-525): pair the first twelve
characters of the selection bitstring with the fixed channel-name table;
a channel is available iff its character is the selection marker. -/
def get_available_channels (chlist_str : String) : List (String × Bool) :=
  (CHANNEL_NAMES.zip chlist_str.toList).map (fun p => (p.1, p.2 == 'X'))

/-- The channel-list derivation of `_read_header` (lines 166-168): the
channel names of the fixed table, in table order, that are available. -/
def channel_list (avail : List (String × Bool)) : List String :=
  CHANNEL_NAMES.filter (fun nm => ((avail.lookup nm).getD false))

/-- The per-pixel pipeline of `NativeMSGFileHandler.get_dataset`
(lines 413-464): a requested channel absent from the file's channel list
raises `KeyError` (line 416); otherwise the unpacked 10-bit sample is
masked to a missing value where it equals zero (`.where(data != 0)`,
line 448) and the masked pixel is calibrated (line 453). -/
def getDatasetPixel (chans : List String) (h : CalibHandler)
    (channel : String) (calibration : Calibration) (raw : ℕ)
    (visCal : ℚ → ℚ) (irCal : ℤ → ℚ → ℚ) : Except PyError (Option ℚ) :=
  if channel ∉ chans then
    Except.error PyError.keyError
  else
    let masked : Option ℚ := if raw = 0 then none else some (raw : ℚ)
    calibrate h channel calibration masked visCal irCal

/-- The header's `PlannedAcquisitionTime` record, holding the two repeat
cycle timestamp fields, over an abstract timestamp type. -/
structure PlannedAcquisitionTime (T : Type) where
  trueRepeatCycleStart : T
  plannedRepeatCycleEnd : T

/-- The header's `ImageAcquisition` record. -/
structure ImageAcquisition (T : Type) where
  plannedAcquisitionTime : PlannedAcquisitionTime T

/-- `NativeMSGFileHandler.start_time` (lines 82-86). -/
def start_time {T : Type} (acq : ImageAcquisition T) : T :=
  acq.plannedAcquisitionTime.trueRepeatCycleStart

/-- `NativeMSGFileHandler.end_time` (lines 88-92). -/
def end_time {T : Type} (acq : ImageAcquisition T) : T :=
  acq.plannedAcquisitionTime.plannedRepeatCycleEnd

/-! ### Sample concrete data used by witnesses and counterexamples -/

/-- A full-disk header: earth model 2, south-east grid origin, 3 km (VISIR)
and 1 km (HRV) steps, full selected rectangle. -/
def sampleHeader : AreaHeader := ⟨2, 2, 2, 1, 1, 3, 3, 3712, 1, 1, 3712⟩

/-- A header whose earth-model field holds the unrecognised value 5. -/
def hdrEarthModel5 : AreaHeader := ⟨5, 2, 2, 1, 1, 3, 3, 3712, 1, 1, 3712⟩

/-- A trailer with the reduced-scan flag clear and zeroed window bounds. -/
def sampleTrailer : AreaTrailer := ⟨false, 0, 0, 0, 0, 0, 0, 0, 0⟩

/-- A handler configured with the unrecognised calibration mode `foo` and
zeroed coefficient tables. -/
def handlerFoo : CalibHandler :=
  ⟨"foo", fun _ => 0, fun _ => 0, fun _ => 0, fun _ => 0, fun _ => 0⟩

/-! ### Claims -/

/-- C9: `start_time` returns the header's
`ImageAcquisition.PlannedAcquisitionTime.TrueRepeatCycleStart` field
verbatim and `end_time` returns the
`ImageAcquisition.PlannedAcquisitionTime.PlannedRepeatCycleEnd` field
verbatim, with no transformation applied to either (the abstract timestamp
type forces the values through untouched). -/
theorem claim_c9 (T : Type) (acq : ImageAcquisition T) :
    start_time acq = acq.plannedAcquisitionTime.trueRepeatCycleStart ∧
    end_time acq = acq.plannedAcquisitionTime.plannedRepeatCycleEnd :=
  ⟨rfl, rfl⟩

/-- C2: earth model 2 gives zero offsets for every channel; earth model 1
gives `(ns, we) = (-0.5, 0.5)` for every standard channel and
`(-1.5, 1.5)` for the high-resolution channel; any other earth-model value
makes the whole area-extent request fail with a not-implemented error. -/
theorem claim_c2 :
    (∀ name : String, earthModelOffsets 2 name = Except.ok (0, 0)) ∧
    (∀ name : String, name ≠ "HRV" →
      earthModelOffsets 1 name = Except.ok (-0.5, 0.5)) ∧
    earthModelOffsets 1 "HRV" = Except.ok (-1.5, 1.5) ∧
    (∀ (em : ℤ) (name : String) (hdr : AreaHeader) (tr : AreaTrailer),
      em ≠ 1 → em ≠ 2 → hdr.typeOfEarthModel = em →
      get_area_extent hdr tr name =
        Except.error (PyError.notImplementedError "Unrecognised Earth model")) := by
  refine ⟨?_, ?_, ?_, ?_⟩
  · intro name; simp [earthModelOffsets]
  · intro name h; simp [earthModelOffsets, h]
  · simp [earthModelOffsets]
  · intro em name hdr tr h1 h2 h3
    simp [get_area_extent, earthModelOffsets, h3, h1, h2]

/-- Witness for C2 at concrete inputs: a standard channel under earth
model 1, and an area-extent request under earth-model value 5. -/
theorem claim_c2_witness :
    earthModelOffsets 1 "VIS006" = Except.ok (-0.5, 0.5) ∧
    get_area_extent hdrEarthModel5 sampleTrailer "IR_108" =
      Except.error (PyError.notImplementedError "Unrecognised Earth model") :=
  ⟨claim_c2.2.1 "VIS006" (by decide),
   claim_c2.2.2.2 5 "IR_108" hdrEarthModel5 sampleTrailer
     (by decide) (by decide) rfl⟩

/-- Counterexample to C8 as stated: at the full-disk rectangle
(north = west = 3712, south = east = 1), zero offsets and step 3, the
difference `ur_col - ll_col` returned by the extent computation is
negative, not positive. -/
theorem claim_c8_counterexample :
    (calculate_area_extent 1856 3712 1 1 3712 0 0 3 3).2.2.1 -
      (calculate_area_extent 1856 3712 1 1 3712 0 0 3 3).1 < 0 := by
  norm_num [calculate_area_extent]

/-- C8 (amended): for zero offsets, positive steps and a rectangle with
`north > south`, `west > east` spanning `rows` lines and `cols` columns,
the differences `ll_col - ur_col` and `ll_row - ur_row` are positive and
equal `cols * col_step` and `rows * row_step` exactly (equivalently,
`ur - ll` is the negative of those products). -/
theorem claim_c8 (c north east south west col_step row_step rows cols : ℚ)
    (hcs : 0 < col_step) (hrs : 0 < row_step)
    (hns : south < north) (hwe : east < west)
    (hcols : cols = west - east + 1) (hrows : rows = north - south + 1) :
    0 < (calculate_area_extent c north east south west 0 0 col_step row_step).1 -
        (calculate_area_extent c north east south west 0 0 col_step row_step).2.2.1 ∧
    (calculate_area_extent c north east south west 0 0 col_step row_step).1 -
        (calculate_area_extent c north east south west 0 0 col_step row_step).2.2.1 =
      cols * col_step ∧
    0 < (calculate_area_extent c north east south west 0 0 col_step row_step).2.1 -
        (calculate_area_extent c north east south west 0 0 col_step row_step).2.2.2 ∧
    (calculate_area_extent c north east south west 0 0 col_step row_step).2.1 -
        (calculate_area_extent c north east south west 0 0 col_step row_step).2.2.2 =
      rows * row_step := by
  have hc : 0 < west - east + 1 := by linarith
  have hr : 0 < north - south + 1 := by linarith
  simp only [calculate_area_extent]
  refine ⟨?_, by rw [hcols]; ring, ?_, by rw [hrows]; ring⟩
  · have : (c - east + 0.5 + 0) * col_step - (c - west - 0.5 + 0) * col_step =
        (west - east + 1) * col_step := by ring
    rw [this]; positivity
  · have : (north - c + 0.5 + 0) * row_step - (south - c - 0.5 + 0) * row_step =
        (north - south + 1) * row_step := by ring
    rw [this]; positivity

/-- Witness for C8 at the concrete full-disk rectangle with step 3. -/
theorem claim_c8_witness :
    0 < (calculate_area_extent 1856 3712 1 1 3712 0 0 3 3).1 -
        (calculate_area_extent 1856 3712 1 1 3712 0 0 3 3).2.2.1 ∧
    (calculate_area_extent 1856 3712 1 1 3712 0 0 3 3).1 -
        (calculate_area_extent 1856 3712 1 1 3712 0 0 3 3).2.2.1 = 3712 * 3 ∧
    0 < (calculate_area_extent 1856 3712 1 1 3712 0 0 3 3).2.1 -
        (calculate_area_extent 1856 3712 1 1 3712 0 0 3 3).2.2.2 ∧
    (calculate_area_extent 1856 3712 1 1 3712 0 0 3 3).2.1 -
        (calculate_area_extent 1856 3712 1 1 3712 0 0 3 3).2.2.2 = 3712 * 3 :=
  claim_c8 1856 3712 1 1 3712 3 3 3712 3712 (by norm_num) (by norm_num)
    (by norm_num) (by norm_num) (by norm_num) (by norm_num)

/-- Counterexample to C7 as stated: under the unrecognised calibration
mode `foo`, a counts-level request does not fail — it returns the data
unchanged, because the counts early-return precedes the mode check. -/
theorem claim_c7_counterexample :
    calibrate handlerFoo "VIS006" Calibration.counts (some 5) id
      (fun _ x => x) = Except.ok (some 5) := rfl

/-- C7 (amended): for every calibration-mode string other than `nominal`
or `gsics` (compared case-insensitively), every calibration request at a
level above counts fails with the not-implemented configuration error;
a counts-level request returns the data unchanged without consulting the
mode. -/
theorem claim_c7 (h : CalibHandler) (channel : String)
    (calibration : Calibration) (data : Option ℚ)
    (visCal : ℚ → ℚ) (irCal : ℤ → ℚ → ℚ)
    (hg : upper h.calib_mode ≠ "GSICS")
    (hn : upper h.calib_mode ≠ "NOMINAL")
    (hc : calibration ≠ Calibration.counts) :
    calibrate h channel calibration data visCal irCal =
      Except.error (PyError.notImplementedError
        "Unknown Calibration mode : Please check") ∧
    calibrate h channel Calibration.counts data visCal irCal =
      Except.ok data := by
  constructor
  · cases calibration with
    | counts => exact absurd rfl hc
    | radiance => simp [calibrate, hg, hn]
    | reflectance => simp [calibrate, hg, hn]
    | brightness_temperature => simp [calibrate, hg, hn]
  · rfl

/-- Witness for C7 at a concrete input: mode `foo`, radiance level. -/
theorem claim_c7_witness :
    calibrate handlerFoo "IR_039" Calibration.radiance (some 1) id
      (fun _ x => x) = Except.error (PyError.notImplementedError
        "Unknown Calibration mode : Please check") ∧
    calibrate handlerFoo "IR_039" Calibration.counts (some 1) id
      (fun _ x => x) = Except.ok (some 1) :=
  claim_c7 handlerFoo "IR_039" Calibration.radiance (some 1) id
    (fun _ x => x) (by decide) (by decide) (by decide)

/-- A header with grid-origin code 4 (outside the documented set) for both
grids, earth model 2. -/
def hdrOrigin4 : AreaHeader := ⟨2, 4, 4, 1, 1, 3, 3, 3712, 1, 1, 3712⟩

/-- A header with grid-origin code 0 (north-west corner) for both grids,
earth model 2. -/
def hdrOrigin0 : AreaHeader := ⟨2, 0, 0, 1, 1, 3, 3, 3712, 1, 1, 3712⟩

/-- C5 (behaviour of the code at the failing input): for grid-origin
value 4 — outside the documented set `{0, 1, 2, 3}` — the area-extent
computation fails with a `KeyError` raised by the `origins` dictionary
lookup while the error message is being formatted, not with the
not-implemented error the claim requires; for the in-range unsupported
value 0 it does fail with the not-implemented error. -/
theorem claim_c5_origin_keyerror :
    get_area_extent hdrOrigin4 sampleTrailer "VIS006" =
      Except.error PyError.keyError ∧
    get_area_extent hdrOrigin4 sampleTrailer "HRV" =
      Except.error PyError.keyError ∧
    get_area_extent hdrOrigin0 sampleTrailer "VIS006" =
      Except.error (PyError.notImplementedError
        "Grid origin not supported number, NW corner") ∧
    get_area_extent hdrOrigin0 sampleTrailer "HRV" =
      Except.error (PyError.notImplementedError
        "Grid origin not supported number, NW corner") :=
  ⟨rfl, rfl, rfl, rfl⟩

/-- C6: for every file whose trailer marks a reduced (rapid-scan)
acquisition, a successful area-extent request for the high-resolution
channel returns exactly the single lower-window extent computed from the
trailer's actual lower-window bounds, never the two-window form. -/
theorem claim_c6 (hdr : AreaHeader) (tr : AreaTrailer)
    (r : AreaExtentResult) (hrs : tr.reducedScan = true)
    (hok : get_area_extent hdr tr "HRV" = Except.ok r) :
    ∃ ns we, earthModelOffsets hdr.typeOfEarthModel "HRV" =
        Except.ok (ns, we) ∧
      r = AreaExtentResult.single (calculate_area_extent
        ((HRV_NUM_COLUMNS : ℚ) / 2 - 2)
        (tr.lowerNorthLineActual : ℚ) (tr.lowerEastColumnActual : ℚ)
        (tr.lowerSouthLineActual : ℚ) (tr.lowerWestColumnActual : ℚ)
        we ns (hdr.columnDirGridStepHRV * 1000)
        (hdr.lineDirGridStepHRV * 1000)) := by
  unfold get_area_extent at hok
  cases hoff : earthModelOffsets hdr.typeOfEarthModel "HRV" with
  | error e => rw [hoff] at hok; simp at hok
  | ok p =>
    obtain ⟨ns, we⟩ := p
    rw [hoff] at hok
    refine ⟨ns, we, rfl, ?_⟩
    simp only [hrs, reduceIte] at hok
    split at hok
    · split at hok <;> simp_all
    · simp only [if_true, or_true, and_true, eq_self_iff_true, true_and] at hok
      exact (Except.ok.injEq _ _).mp hok.symm |>.symm ▸ rfl

/-- A rapid-scan trailer with a concrete lower window. -/
def rapidScanTrailer : AreaTrailer := ⟨true, 2600, 5568, 1, 1, 0, 0, 0, 0⟩

/-- Witness for C6 at a concrete rapid-scan file. -/
theorem claim_c6_witness :
    ∃ ns we, earthModelOffsets sampleHeader.typeOfEarthModel "HRV" =
        Except.ok (ns, we) ∧
      AreaExtentResult.single (calculate_area_extent 5566 2600 1 1 5568
        (0 : ℚ) (0 : ℚ) 1000 1000) =
      AreaExtentResult.single (calculate_area_extent
        ((HRV_NUM_COLUMNS : ℚ) / 2 - 2)
        (rapidScanTrailer.lowerNorthLineActual : ℚ)
        (rapidScanTrailer.lowerEastColumnActual : ℚ)
        (rapidScanTrailer.lowerSouthLineActual : ℚ)
        (rapidScanTrailer.lowerWestColumnActual : ℚ)
        we ns (sampleHeader.columnDirGridStepHRV * 1000)
        (sampleHeader.lineDirGridStepHRV * 1000)) :=
  claim_c6 sampleHeader rapidScanTrailer
    (AreaExtentResult.single (calculate_area_extent 5566 2600 1 1 5568
      (0 : ℚ) (0 : ℚ) 1000 1000)) rfl (by norm_num [get_area_extent,
        earthModelOffsets, is_full_disk, calculate_area_extent,
        HRV_NUM_COLUMNS, VISIR_NUM_COLUMNS, VISIR_NUM_LINES,
        sampleHeader, rapidScanTrailer])

/-- The value returned by `_calculate_area_extent` satisfies the spec's
extent formula at the same arguments. -/
lemma calculate_area_extent_spec (c n e s w we ns cs ls : ℚ) :
    specExtentFormula c n e s w we ns cs ls
      (calculate_area_extent c n e s w we ns cs ls) :=
  ⟨rfl, rfl, rfl, rfl⟩

/-- C1: every extent a successful area-extent request returns — the
standard/region-of-interest extent from the (scaled) header rectangle, the
rapid-scan lower-window extent, and both full-disk high-resolution window
extents from the trailer bounds — satisfies the spec's four-coordinate
extent formula with the channel's center reference point, the earth-model
offsets and the channel's grid step sizes. -/
theorem claim_c1 (hdr : AreaHeader) (tr : AreaTrailer) (name : String)
    (r : AreaExtentResult) (ns we : ℚ)
    (hoff : earthModelOffsets hdr.typeOfEarthModel name = Except.ok (ns, we))
    (hok : get_area_extent hdr tr name = Except.ok r) :
    (let c : ℚ := if name = "HRV" then (HRV_NUM_COLUMNS : ℚ) / 2 - 2
                  else (VISIR_NUM_COLUMNS : ℚ) / 2
     let cs : ℚ := (if name = "HRV" then hdr.columnDirGridStepHRV
                    else hdr.columnDirGridStepVISIR) * 1000
     let ls : ℚ := (if name = "HRV" then hdr.lineDirGridStepHRV
                    else hdr.lineDirGridStepVISIR) * 1000
     let k : ℚ := if name = "HRV" then 3 else 1
     match r with
     | AreaExtentResult.single e =>
         specExtentFormula c (tr.lowerNorthLineActual : ℚ)
           (tr.lowerEastColumnActual : ℚ) (tr.lowerSouthLineActual : ℚ)
           (tr.lowerWestColumnActual : ℚ) we ns cs ls e
       ∨ specExtentFormula c (k * (hdr.northLineSelectedRectangle : ℚ))
           (k * (hdr.eastColumnSelectedRectangle : ℚ))
           (k * (hdr.southLineSelectedRectangle : ℚ))
           (k * (hdr.westColumnSelectedRectangle : ℚ)) we ns cs ls e
     | AreaExtentResult.split up low _ _ _ _ =>
         specExtentFormula c (tr.upperNorthLineActual : ℚ)
           (tr.upperEastColumnActual : ℚ) (tr.upperSouthLineActual : ℚ)
           (tr.upperWestColumnActual : ℚ) we ns cs ls up ∧
         specExtentFormula c (tr.lowerNorthLineActual : ℚ)
           (tr.lowerEastColumnActual : ℚ) (tr.lowerSouthLineActual : ℚ)
           (tr.lowerWestColumnActual : ℚ) we ns cs ls low) := by
  unfold get_area_extent at hok
  rw [hoff] at hok
  dsimp only at hok ⊢
  by_cases hname : name = "HRV" <;> simp only [hname, reduceIte] at hok ⊢
  · split at hok
    · split at hok <;> simp_all
    · split at hok
      · split at hok
        · cases hok
          exact Or.inl (calculate_area_extent_spec _ _ _ _ _ _ _ _ _)
        · cases hok
          exact ⟨calculate_area_extent_spec _ _ _ _ _ _ _ _ _,
                 calculate_area_extent_spec _ _ _ _ _ _ _ _ _⟩
      · cases hok
        refine Or.inr ?_
        push_cast
        exact calculate_area_extent_spec _ _ _ _ _ _ _ _ _
  · split at hok
    · split at hok <;> simp_all
    · split at hok
      · simp_all
      · cases hok
        refine Or.inr ?_
        push_cast
        exact calculate_area_extent_spec _ _ _ _ _ _ _ _ _

/-- Witness for C1: the standard-channel full-disk request on the sample
header (rectangle 1..3712, 3 km steps) yields the extent satisfying the
formula with center 1856 and steps 3000 m. -/
theorem claim_c1_witness :
    specExtentFormula 1856 0 0 0 0 0 0 3000 3000
      (5566500, 5569500, -5569500, -5566500) ∨
    specExtentFormula 1856 3712 1 1 3712 0 0 3000 3000
      (5566500, 5569500, -5569500, -5566500) := by
  have h := claim_c1 sampleHeader sampleTrailer "VIS006"
    (AreaExtentResult.single (5566500, 5569500, -5569500, -5566500)) 0 0 rfl
    (by simp [get_area_extent, earthModelOffsets, is_full_disk,
      sampleHeader, sampleTrailer, calculate_area_extent,
      VISIR_NUM_COLUMNS, VISIR_NUM_LINES]
        norm_num)
  simp only [sampleHeader, sampleTrailer, VISIR_NUM_COLUMNS] at h
  norm_num at h ⊢
  exact h

/-- A handler configured with calibration mode `gsics` and small distinct
per-index coefficient tables. -/
def handlerGsics : CalibHandler :=
  ⟨"gsics", fun i => (i : ℚ) + 1, fun i => (i : ℚ) + 2,
   fun i => (i : ℚ) + 3, fun i => (i : ℚ) + 4, fun i => (i : ℤ)⟩

/-- A handler configured with calibration mode `nominal` and small distinct
per-index coefficient tables. -/
def handlerNominal : CalibHandler :=
  ⟨"nominal", fun i => (i : ℚ) + 1, fun i => (i : ℚ) + 2,
   fun i => (i : ℚ) + 3, fun i => (i : ℚ) + 4, fun i => (i : ℤ)⟩

/-- C3: under calibration mode `gsics` and any level above counts, visible
channels keep the nominal header gain/offset pair, every other channel uses
the alternate (GSICS) gain together with the alternate offset first
multiplied by that same gain, the coefficient index is the channel's
position in the full 12-channel table, and the result is unchanged by
which channels happen to be present in the file. -/
theorem claim_c3 (h : CalibHandler) (channel : String)
    (calibration : Calibration) (data : Option ℚ)
    (visCal : ℚ → ℚ) (irCal : ℤ → ℚ → ℚ)
    (hg : upper h.calib_mode = "GSICS")
    (hc : calibration ≠ Calibration.counts) :
    (calibrate h channel calibration data visCal irCal =
      (let i := CHANNEL_NAMES.indexOf channel
       let gain := if channel ∈ VIS_CHANNELS then h.calSlope i
                   else h.gsicsCalCoeff i
       let offset := if channel ∈ VIS_CHANNELS then h.calOffset i
                     else h.gsicsOffsetCount i * h.gsicsCalCoeff i
       let res := convert_to_radiance data gain offset
       match calibration with
       | Calibration.reflectance => Except.ok (res.map visCal)
       | Calibration.brightness_temperature =>
           Except.ok (res.map (irCal (h.plannedChanProcessing i)))
       | _ => Except.ok res)) ∧
    (∀ h2 : CalibHandler, upper h2.calib_mode = "NOMINAL" →
      calibrate h2 channel calibration data visCal irCal =
        (let i := CHANNEL_NAMES.indexOf channel
         let res := convert_to_radiance data (h2.calSlope i) (h2.calOffset i)
         match calibration with
         | Calibration.reflectance => Except.ok (res.map visCal)
         | Calibration.brightness_temperature =>
             Except.ok (res.map (irCal (h2.plannedChanProcessing i)))
         | _ => Except.ok res)) ∧
    (∀ (raw : ℕ) (chans chans' : List String), channel ∈ chans →
      channel ∈ chans' →
      getDatasetPixel chans h channel calibration raw visCal irCal =
        getDatasetPixel chans' h channel calibration raw visCal irCal) := by
  refine ⟨?_, ?_, ?_⟩
  · cases calibration with
    | counts => exact absurd rfl hc
    | radiance =>
        by_cases hv : channel ∈ VIS_CHANNELS <;> simp [calibrate, hg, hv]
    | reflectance =>
        by_cases hv : channel ∈ VIS_CHANNELS <;> simp [calibrate, hg, hv]
    | brightness_temperature =>
        by_cases hv : channel ∈ VIS_CHANNELS <;> simp [calibrate, hg, hv]
  · intro h2 hnom
    cases calibration with
    | counts => exact absurd rfl hc
    | radiance => simp [calibrate, hnom]
    | reflectance => simp [calibrate, hnom]
    | brightness_temperature => simp [calibrate, hnom]
  · intro raw chans chans2 h1 h2
    simp [getDatasetPixel, h1, h2]

/-- Witness for C3: under `gsics`, the infrared channel `IR_039` (table
index 3) is calibrated with gain `6` and offset `7 * 6 = 42`, and the file
channel list does not affect the result. -/
theorem claim_c3_witness :
    calibrate handlerGsics "IR_039" Calibration.radiance (some 1) id
      (fun _ x => x) = Except.ok (some 48) ∧
    getDatasetPixel ["IR_039"] handlerGsics "IR_039" Calibration.radiance 5
      id (fun _ x => x) =
    getDatasetPixel ["VIS006", "IR_039"] handlerGsics "IR_039"
      Calibration.radiance 5 id (fun _ x => x) := by
  have h := claim_c3 handlerGsics "IR_039" Calibration.radiance (some 1) id
    (fun _ x => x) (by decide) (by decide)
  refine ⟨?_, h.2.2 5 ["IR_039"] ["VIS006", "IR_039"] (by decide) (by decide)⟩
  rw [h.1]
  have hidx : List.indexOf "IR_039" CHANNEL_NAMES = 3 := by decide
  simp [hidx, VIS_CHANNELS, handlerGsics, convert_to_radiance]
  norm_num

/-- C10: a counts-level dataset request returns the unpacked sample only
where it is non-zero and a missing value where it is zero, and a zero
sample stays missing through every calibration level under either valid
calibration mode — the zero-masking happens before calibration. -/
theorem claim_c10 (chans : List String) (h : CalibHandler)
    (channel : String) (calibration : Calibration) (raw : ℕ)
    (visCal : ℚ → ℚ) (irCal : ℤ → ℚ → ℚ) (hmem : channel ∈ chans) :
    getDatasetPixel chans h channel Calibration.counts raw visCal irCal =
      Except.ok (if raw = 0 then none else some (raw : ℚ)) ∧
    (raw = 0 →
      (upper h.calib_mode = "GSICS" ∨ upper h.calib_mode = "NOMINAL") →
      getDatasetPixel chans h channel calibration raw visCal irCal =
        Except.ok none) := by
  constructor
  · simp [getDatasetPixel, hmem, calibrate]
  · intro h0 hmode
    subst h0
    cases calibration <;>
      rcases hmode with hm | hm <;>
        simp [getDatasetPixel, hmem, calibrate, convert_to_radiance, hm]

/-- Witness for C10: a zero sample is missing at counts and radiance
levels; a non-zero sample is returned unchanged at counts level. -/
theorem claim_c10_witness :
    getDatasetPixel ["VIS006"] handlerNominal "VIS006" Calibration.counts 0
      id (fun _ x => x) = Except.ok none ∧
    getDatasetPixel ["VIS006"] handlerNominal "VIS006" Calibration.radiance
      0 id (fun _ x => x) = Except.ok none ∧
    getDatasetPixel ["VIS006"] handlerNominal "VIS006" Calibration.counts 7
      id (fun _ x => x) = Except.ok (some 7) := by
  have h0 := claim_c10 ["VIS006"] handlerNominal "VIS006"
    Calibration.radiance 0 id (fun _ x => x) (by decide)
  have h7 := claim_c10 ["VIS006"] handlerNominal "VIS006"
    Calibration.radiance 7 id (fun _ x => x) (by decide)
  exact ⟨by simpa using h0.1, h0.2 rfl (Or.inr (by decide)),
    by simpa using h7.1⟩

/-- Looking up the `i`-th table name in the availability pairs built by
zipping a name table with the bitstring characters yields the `i`-th
character's comparison with the selection marker, provided the names are
distinct. -/
lemma lookup_avail (names : List String) (chars : List Char) (i : ℕ)
    (hnd : names.Nodup) (hi : i < names.length) (hic : i < chars.length) :
    ((names.zip chars).map (fun p => (p.1, p.2 == 'X'))).lookup
        (names.getD i "") = some (chars.getD i ' ' == 'X') := by
  induction names generalizing chars i with
  | nil => simp at hi
  | cons n ns ih =>
    cases chars with
    | nil => simp at hic
    | cons c cs =>
      cases i with
      | zero => simp [List.lookup]
      | succ j =>
        have hn : n ∉ ns := (List.nodup_cons.mp hnd).1
        have hj : j < ns.length := by simpa using hi
        have hjc : j < cs.length := by simpa using hic
        have hmem : ns.getD j "" ∈ ns := by
          rw [List.getD_eq_getElem _ _ hj]; exact List.getElem_mem _
        have hne : (ns.getD j "" == n) = false :=
          beq_eq_false_iff_ne.mpr (fun e => hn (e ▸ hmem))
        simp only [List.zip_cons_cons, List.map_cons, List.getD_cons_succ,
          List.lookup, hne]
        exact ih cs j (List.nodup_cons.mp hnd).2 hj hjc

/-- A key absent from the tail can be dropped from the front of the
association list without changing which tail names pass the
availability filter. -/
lemma filter_lookup_cons (n : String) (v : Bool)
    (rest : List (String × Bool)) (ns : List String) (hn : n ∉ ns) :
    ns.filter (fun nm => ((((n, v) :: rest).lookup nm).getD false)) =
      ns.filter (fun nm => ((rest.lookup nm).getD false)) := by
  apply List.filter_congr
  intro x hx
  have hne : (x == n) = false :=
    beq_eq_false_iff_ne.mpr (fun e => hn (e ▸ hx))
  simp [List.lookup, hne]

/-- Filtering a distinct name table by the availability mapping built from
a same-length character list keeps exactly as many names as that list has
selection markers. -/
lemma filter_avail_length (names : List String) (chars : List Char)
    (hnd : names.Nodup) (hlen : names.length = chars.length) :
    (names.filter (fun nm =>
        (((names.zip chars).map (fun p => (p.1, p.2 == 'X'))).lookup
          nm).getD false)).length = chars.count 'X' := by
  induction names generalizing chars with
  | nil =>
    cases chars with
    | nil => simp
    | cons c cs => simp at hlen
  | cons n ns ih =>
    cases chars with
    | nil => simp at hlen
    | cons c cs =>
      have hn : n ∉ ns := (List.nodup_cons.mp hnd).1
      have hnd2 : ns.Nodup := (List.nodup_cons.mp hnd).2
      have hlen2 : ns.length = cs.length := by simpa using hlen
      have hhead : (((((n, c == 'X') :: (ns.zip cs).map
          (fun p => (p.1, p.2 == 'X'))).lookup n)).getD false)
            = (c == 'X') := by
        simp [List.lookup]
      simp only [List.zip_cons_cons, List.map_cons, List.filter_cons]
      rw [filter_lookup_cons n (c == 'X') _ ns hn]
      rw [List.count_cons, hhead]
      by_cases hcx : (c == 'X') = true
      · rw [if_pos hcx, List.length_cons, ih cs hnd2 hlen2]
        simp [hcx]
      · rw [if_neg hcx, ih cs hnd2 hlen2]
        simp [hcx]

/-- C4: for every 12-character selection bitstring, channel `i` of the
fixed table is marked available exactly when character `i-1` is `X`; the
derived channel list has exactly `count(X)` entries and is ordered as a
sublist of the fixed channel-name table, independent of which positions
are set. -/
theorem claim_c4 (s : String) (hlen : s.length = 12) :
    (∀ i : ℕ, i < 12 →
      (get_available_channels s).lookup (CHANNEL_NAMES.getD i "") =
        some (s.toList.getD i ' ' == 'X')) ∧
    (channel_list (get_available_channels s)).length = s.toList.count 'X' ∧
    (channel_list (get_available_channels s)).Sublist CHANNEL_NAMES := by
  have hchars : s.toList.length = 12 := hlen
  have hnd : CHANNEL_NAMES.Nodup := by decide
  have hcl : CHANNEL_NAMES.length = 12 := by decide
  simp only [get_available_channels, channel_list]
  refine ⟨?_, ?_, ?_⟩
  · intro i hi
    exact lookup_avail CHANNEL_NAMES s.toList i hnd (by omega) (by omega)
  · exact filter_avail_length CHANNEL_NAMES s.toList hnd (by omega)
  · exact List.filter_sublist _

/-- Witness for C4 at the concrete bitstring `X-XX--------` (3 markers). -/
theorem claim_c4_witness :
    (get_available_channels "X-XX--------").lookup (CHANNEL_NAMES.getD 0 "")
      = some ("X-XX--------".toList.getD 0 ' ' == 'X') ∧
    (channel_list (get_available_channels "X-XX--------")).length =
      "X-XX--------".toList.count 'X' ∧
    (channel_list (get_available_channels "X-XX--------")).Sublist
      CHANNEL_NAMES := by
  have h := claim_c4 "X-XX--------" (by decide)
  exact ⟨h.1 0 (by decide), h.2.1, h.2.2⟩

end SeviriNative
